import Mathlib

/-!
Verification of the language-detection engine of `src/AJ.py`
(`pygments_language_detect`, `detect_with_linguist` and the folder branch of
`main_menu`), shallowly embedded in Lean.

Modelling conventions:
* A file on disk is a `FileEntry`: its base name and the outcome of opening
  and reading it (`none` models an `OSError`/`IOError` raised by
  `open`/`read`; `some bs` models the file's byte content, of which the code
  reads the first 8192 bytes).
* The two pygments lookups `guess_lexer_for_filename` (content-based) and
  `get_lexer_for_filename` (filename-based) are third-party library calls;
  they are abstracted as oracle functions returning `Option String`
  (`none` models the `ClassNotFound` exception, `some lang` a lexer whose
  `name` attribute is `lang`).
* Bytes are `Nat` values (< 256 for real inputs); decoded text is the list of
  Unicode code points. `utf8Decode` is the strict UTF-8 decoder that Python's
  `bytes.decode('utf-8')` implements: it rejects overlong forms, surrogates,
  code points above U+10FFFF and truncated sequences.
* Python floats are idealised as exact rationals; `round(x, 1)` is modelled
  by `pyRound1`, round-half-to-even at one decimal place.
-/

namespace AJ

/-- The binary-extension set of `pygments_language_detect`
(src/AJ.py line 83). -/
def binaryExtensions : List String :=
  [".deb", ".bin", ".exe", ".zip", ".tar", ".gz", ".png", ".jpg"]

/-- Index of the last occurrence of a dot in a character list, if any. -/
def lastDot (cs : List Char) : Option Nat :=
  (List.range cs.length).foldl
    (fun acc i => if cs.getD i ' ' = '.' then some i else acc) none

/-- Python's `pathlib.PurePath.suffix` of a base name: the substring from the
last dot on, provided that dot is neither the first nor the last character;
otherwise the empty string. -/
def pySuffix (name : String) : String :=
  match lastDot name.data with
  | none => ""
  | some i =>
      if 0 < i ∧ i + 1 < name.data.length then String.mk (name.data.drop i)
      else ""

/-- Lower bound for the first continuation byte after leading byte `b`
(UTF-8 shortest-form constraint, as Python's strict utf-8 codec checks). -/
def contLo (b : Nat) : Nat :=
  if b = 0xE0 then 0xA0 else if b = 0xF0 then 0x90 else 0x80

/-- Upper bound for the first continuation byte after leading byte `b`
(excludes surrogates after 0xED and code points above U+10FFFF after 0xF4). -/
def contHi (b : Nat) : Nat :=
  if b = 0xED then 0x9F else if b = 0xF4 then 0x8F else 0xBF

/-- Strict UTF-8 decoding of a byte list into Unicode code points, `none` on
any invalid or truncated sequence — the behaviour of Python's
`bytes.decode('utf-8')` (which raises `UnicodeDecodeError`). -/
def utf8Decode : List Nat → Option (List Nat)
  | [] => some []
  | b :: bs =>
      if b ≤ 0x7F then (utf8Decode bs).map (b :: ·)
      else if 0xC2 ≤ b ∧ b ≤ 0xDF then
        match bs with
        | b1 :: bs1 =>
            if 0x80 ≤ b1 ∧ b1 ≤ 0xBF then
              (utf8Decode bs1).map (((b - 0xC0) * 64 + (b1 - 0x80)) :: ·)
            else none
        | [] => none
      else if 0xE0 ≤ b ∧ b ≤ 0xEF then
        match bs with
        | b1 :: b2 :: bs2 =>
            if (contLo b ≤ b1 ∧ b1 ≤ contHi b) ∧ (0x80 ≤ b2 ∧ b2 ≤ 0xBF) then
              (utf8Decode bs2).map
                (((b - 0xE0) * 4096 + (b1 - 0x80) * 64 + (b2 - 0x80)) :: ·)
            else none
        | _ => none
      else if 0xF0 ≤ b ∧ b ≤ 0xF4 then
        match bs with
        | b1 :: b2 :: b3 :: bs3 =>
            if (contLo b ≤ b1 ∧ b1 ≤ contHi b) ∧ (0x80 ≤ b2 ∧ b2 ≤ 0xBF) ∧
                (0x80 ≤ b3 ∧ b3 ≤ 0xBF) then
              (utf8Decode bs3).map
                (((b - 0xF0) * 262144 + (b1 - 0x80) * 4096 +
                  (b2 - 0x80) * 64 + (b3 - 0x80)) :: ·)
            else none
        | _ => none
      else none

/-- The code points of a Lean string (used to build concrete file contents;
for ASCII text these coincide with the UTF-8 bytes). -/
def strCodes (s : String) : List Nat := s.data.map Char.toNat

/-- A regular file as the detector sees it: base name plus the outcome of
`open(path, 'rb')` / `f.read(8192)` — `none` when the open or read raises,
`some bs` when the file's bytes are `bs` (the code reads at most the first
8192 of them). -/
structure FileEntry where
  name : String
  readResult : Option (List Nat)
  deriving DecidableEq, Repr

/-- Oracle type of pygments `guess_lexer_for_filename`: base name and decoded
text to the detected lexer's name, `none` for `ClassNotFound`. -/
def GuessT : Type := String → List Nat → Option String

/-- Oracle type of pygments `get_lexer_for_filename`: base name to the
extension-matched lexer's name, `none` for `ClassNotFound`. -/
def GetT : Type := String → Option String

/-- Single-file branch of `pygments_language_detect` (src/AJ.py lines
85-104): the returned singleton dict `{label: 100}`, as the pair
`(label, 100)`. A `ClassNotFound` from `get_lexer_for_filename` is not
caught by the `except UnicodeDecodeError` handler, so it reaches the outer
`except Exception` and yields `('Error', 100)`. -/
def singleDetect (guess : GuessT) (getl : GetT) (f : FileEntry) :
    String × Nat :=
  if pySuffix f.name ∈ binaryExtensions then ("Binary", 100)
  else
    match f.readResult with
    | none => ("Error", 100)
    | some bs =>
        match utf8Decode (bs.take 8192) with
        | none => ("Binary", 100)
        | some text =>
            match guess f.name text with
            | some lang => (lang, 100)
            | none =>
                match getl f.name with
                | some lang => (lang, 100)
                | none => ("Error", 100)

/-- Label a single regular file receives in the folder branch of
`pygments_language_detect` (src/AJ.py lines 108-128); the branch structure
is the same as in the single-file branch. -/
def classifyDirFile (guess : GuessT) (getl : GetT) (f : FileEntry) : String :=
  if pySuffix f.name ∈ binaryExtensions then "Binary"
  else
    match f.readResult with
    | none => "Error"
    | some bs =>
        match utf8Decode (bs.take 8192) with
        | none => "Binary"
        | some text =>
            match guess f.name text with
            | some lang => lang
            | none =>
                match getl f.name with
                | some lang => lang
                | none => "Error"

/-- The mutable pair `(language_stats, total_files)` of the folder branch:
`language_stats` is a `defaultdict(int)`, modelled as the multiset of labels
counted so far (`stats.count lab` is the dict entry for `lab`). -/
structure AggState where
  stats : Multiset String
  total : Nat
  deriving DecidableEq

/-- Processing of one regular file in the `rglob` walk: `total_files += 1`,
then exactly one `language_stats[...] += 1` (src/AJ.py lines 109-128). -/
def stepFile (guess : GuessT) (getl : GetT) (st : AggState) (f : FileEntry) :
    AggState :=
  { stats := classifyDirFile guess getl f ::ₘ st.stats, total := st.total + 1 }

/-- The whole walk over the regular files of the tree, in traversal order,
starting from empty statistics. -/
def walkDir (guess : GuessT) (getl : GetT) (files : List FileEntry) :
    AggState :=
  files.foldl (stepFile guess getl) ⟨0, 0⟩

/-- Round-half-to-even to an integer, the rounding of Python's built-in
`round` (idealised over exact rationals). -/
def roundHalfEven (x : ℚ) : ℤ :=
  if x - ⌊x⌋ < 1/2 then ⌊x⌋
  else if 1/2 < x - ⌊x⌋ then ⌊x⌋ + 1
  else if Even ⌊x⌋ then ⌊x⌋ else ⌊x⌋ + 1

/-- Python's `round(x, 1)`: round-half-to-even at one decimal place. -/
def pyRound1 (x : ℚ) : ℚ := (roundHalfEven (x * 10) : ℚ) / 10

/-- Folder branch result of `pygments_language_detect` (src/AJ.py lines
130-132): when at least one file was seen, the observed labels together with
`round(v / total_files * 100, 1)` for each; otherwise the empty dict,
modelled as `(∅, fun _ => 0)`. -/
def dirDetect (guess : GuessT) (getl : GetT) (files : List FileEntry) :
    Finset String × (String → ℚ) :=
  let st := walkDir guess getl files
  if 0 < st.total then
    (st.stats.toFinset,
      fun k => pyRound1 ((st.stats.count k : ℚ) / (st.total : ℚ) * 100))
  else (∅, fun _ => 0)

/-- The value `main_menu` ends up displaying for a folder: either the
external linguist breakdown or the internal pygments one. -/
inductive MenuResult where
  | external (r : List (String × ℚ))
  | internal (b : Finset String × (String → ℚ))

/-- Folder branch of `main_menu` (src/AJ.py lines 162-173) composed with
`detect_with_linguist` (lines 59-76): `ext = none` models every failure of
the external tool (binary missing, any exception including the 30s timeout —
all caught, returning `None`); `ext = some r` a parsed JSON breakdown. The
menu code falls back to `pygments_language_detect` whenever the result is
falsy (`None` or an empty breakdown). -/
def folderAnalyze (ext : Option (List (String × ℚ))) (guess : GuessT)
    (getl : GetT) (files : List FileEntry) : MenuResult :=
  match ext with
  | some r => if r = [] then .internal (dirDetect guess getl files)
              else .external r
  | none => .internal (dirDetect guess getl files)

/-- Modelled from the spec: the content-based lexical guesser
(`pygments.lexers.guess_lexer_for_filename`) is third-party library code not
in this repository; per the spec's Content Classifier it applies a
content-based shebang heuristic, so text beginning with the shebang line
`#!/bin/bash` is recognised as `Bash`. -/
def specShebangGuess : GuessT := fun _ text =>
  if text.take 11 = strCodes "#!/bin/bash" then some "Bash" else none

end AJ

namespace AJ

/-- Per-step effect of processing one file: `total_files` and the multiset of
counted labels each grow by exactly one. -/
theorem foldl_stepFile_spec (g : GuessT) (l : GetT) :
    ∀ (files : List FileEntry) (st : AggState),
      Multiset.card (files.foldl (stepFile g l) st).stats =
        Multiset.card st.stats + files.length ∧
      (files.foldl (stepFile g l) st).total = st.total + files.length := by
  intro files
  induction files with
  | nil => intro st; simp
  | cons f fs ih =>
      intro st
      have h := ih (stepFile g l st f)
      simp only [List.foldl_cons, List.length_cons]
      constructor
      · rw [h.1]; simp [stepFile]; omega
      · rw [h.2]; simp [stepFile]; omega

/-- After the walk, the number of counted labels equals `total_files`. -/
theorem walkDir_card_eq_total (g : GuessT) (l : GetT)
    (files : List FileEntry) :
    Multiset.card (walkDir g l files).stats = (walkDir g l files).total := by
  have h := foldl_stepFile_spec g l files ⟨0, 0⟩
  unfold walkDir
  rw [h.1, h.2]
  simp

/-- `total_files` after the walk is the number of regular files visited. -/
theorem walkDir_total_eq_length (g : GuessT) (l : GetT)
    (files : List FileEntry) :
    (walkDir g l files).total = files.length := by
  have h := foldl_stepFile_spec g l files ⟨0, 0⟩
  unfold walkDir
  rw [h.2]
  simp

/-- Shape of the folder result when at least one file was seen. -/
theorem dirDetect_pos (g : GuessT) (l : GetT) (files : List FileEntry)
    (h : 0 < (walkDir g l files).total) :
    dirDetect g l files =
      ((walkDir g l files).stats.toFinset,
        fun k => pyRound1 (((walkDir g l files).stats.count k : ℚ) /
          ((walkDir g l files).total : ℚ) * 100)) := by
  simp [dirDetect, h]

/-- Round-half-to-even moves a rational by at most one half. -/
theorem abs_roundHalfEven_sub_le (y : ℚ) :
    |(roundHalfEven y : ℚ) - y| ≤ 1 / 2 := by
  have h0 : (⌊y⌋ : ℚ) ≤ y := Int.floor_le y
  have h1 : y < (⌊y⌋ : ℚ) + 1 := Int.lt_floor_add_one y
  unfold roundHalfEven
  split
  · next h =>
      rw [abs_le]
      constructor <;> linarith
  · next h =>
      push_neg at h
      split
      · next h' =>
          rw [abs_le]
          push_cast
          constructor <;> linarith
      · next h' =>
          push_neg at h'
          have he : y - (⌊y⌋ : ℚ) = 1 / 2 := le_antisymm h' h
          split
          · rw [abs_le]
            constructor <;> linarith
          · rw [abs_le]
            push_cast
            constructor <;> linarith

/-- Rounding at one decimal place moves a rational by at most 1/20 ≤ 1/10. -/
theorem abs_pyRound1_sub_le (x : ℚ) : |pyRound1 x - x| ≤ 1 / 10 := by
  have h := abs_roundHalfEven_sub_le (x * 10)
  have e : pyRound1 x - x = ((roundHalfEven (x * 10) : ℚ) - x * 10) / 10 := by
    unfold pyRound1; ring
  rw [e, abs_div]
  have e10 : |(10 : ℚ)| = 10 := by norm_num
  rw [e10]
  linarith

/-- The unrounded per-label fractions of a count multiset sum to 100. -/
theorem sum_count_div_total (m : Multiset String) (T : ℚ)
    (hT : (Multiset.card m : ℚ) = T) (hTne : T ≠ 0) :
    ∑ k ∈ m.toFinset, (m.count k : ℚ) / T * 100 = 100 := by
  rw [← Finset.sum_mul, ← Finset.sum_div]
  have hc : ∑ k ∈ m.toFinset, (m.count k : ℚ) = (Multiset.card m : ℚ) := by
    rw [← Nat.cast_sum, Multiset.toFinset_sum_count_eq]
  rw [hc, hT, div_self hTne, one_mul]

/-- Summed rounded per-label percentages stay within card/10 of 100. -/
theorem sum_pyRound1_close (m : Multiset String) (T : ℚ)
    (hT : (Multiset.card m : ℚ) = T) (hTne : T ≠ 0) :
    |(∑ k ∈ m.toFinset, pyRound1 ((m.count k : ℚ) / T * 100)) - 100| ≤
      (m.toFinset.card : ℚ) * (1 / 10) := by
  have hsum := sum_count_div_total m T hT hTne
  have key : (∑ k ∈ m.toFinset, pyRound1 ((m.count k : ℚ) / T * 100)) - 100 =
      ∑ k ∈ m.toFinset,
        (pyRound1 ((m.count k : ℚ) / T * 100) - (m.count k : ℚ) / T * 100) := by
    rw [Finset.sum_sub_distrib, hsum]
  rw [key]
  calc |∑ k ∈ m.toFinset,
          (pyRound1 ((m.count k : ℚ) / T * 100) - (m.count k : ℚ) / T * 100)|
      ≤ ∑ k ∈ m.toFinset,
          |pyRound1 ((m.count k : ℚ) / T * 100) - (m.count k : ℚ) / T * 100| :=
        Finset.abs_sum_le_sum_abs _ _
    _ ≤ ∑ _k ∈ m.toFinset, (1 / 10 : ℚ) :=
        Finset.sum_le_sum (fun k _ => abs_pyRound1_sub_le _)
    _ = (m.toFinset.card : ℚ) * (1 / 10) := by
        rw [Finset.sum_const, nsmul_eq_mul]

/-- The displayed folder percentages sum to 100 within card/10. -/
theorem dirDetect_sum_close (g : GuessT) (l : GetT) (files : List FileEntry)
    (h : 0 < (walkDir g l files).total) :
    |(∑ k ∈ (dirDetect g l files).1, (dirDetect g l files).2 k) - 100| ≤
      ((dirDetect g l files).1.card : ℚ) * (1 / 10) := by
  have hT : (Multiset.card (walkDir g l files).stats : ℚ) =
      ((walkDir g l files).total : ℚ) := by
    exact_mod_cast congrArg Nat.cast (walkDir_card_eq_total g l files)
  have hTne : ((walkDir g l files).total : ℚ) ≠ 0 := by
    have hpos : (0 : ℚ) < ((walkDir g l files).total : ℚ) := by exact_mod_cast h
    exact ne_of_gt hpos
  rw [dirDetect_pos g l files h]
  exact sum_pyRound1_close _ _ hT hTne

end AJ

namespace AJ

/-- C1: a file whose suffix is in the registered binary-extension set is
labelled `Binary` in single-file mode (`{'Binary': 100}`) and in directory
mode, whatever the outcome of reading its content would be — the read result
is never consulted (src/AJ.py lines 86-88 and 110-112). -/
theorem binaryExt_shortcircuit (g : GuessT) (l : GetT) (name : String)
    (rr : Option (List Nat)) (h : pySuffix name ∈ binaryExtensions) :
    singleDetect g l ⟨name, rr⟩ = ("Binary", 100) ∧
    classifyDirFile g l ⟨name, rr⟩ = "Binary" := by
  constructor <;> simp [singleDetect, classifyDirFile, h]

/-- Witness for C1 at the file `a.png` whose read would fail: the label is
still `Binary` and no content is needed. -/
theorem binaryExt_shortcircuit_witness :
    pySuffix "a.png" ∈ binaryExtensions ∧
    (singleDetect (fun _ _ => none) (fun _ => none) ⟨"a.png", none⟩ =
        ("Binary", 100) ∧
      classifyDirFile (fun _ _ => none) (fun _ => none) ⟨"a.png", none⟩ =
        "Binary") :=
  ⟨by decide,
    binaryExt_shortcircuit (fun _ _ => none) (fun _ => none) "a.png" none
      (by decide)⟩

/-- C2: a file whose suffix is not in the binary-extension set and whose
first up-to-8192 bytes are not valid UTF-8 is labelled `Binary` in both
modes, regardless of extension (src/AJ.py lines 101-102 and 125-126). -/
theorem decodeFailure_binary (g : GuessT) (l : GetT) (name : String)
    (bs : List Nat) (h1 : pySuffix name ∉ binaryExtensions)
    (h2 : utf8Decode (bs.take 8192) = none) :
    singleDetect g l ⟨name, some bs⟩ = ("Binary", 100) ∧
    classifyDirFile g l ⟨name, some bs⟩ = "Binary" := by
  constructor <;> simp [singleDetect, classifyDirFile, h1, h2]

/-- Witness for C2 at a `.txt` file whose single content byte 0xFF is not
valid UTF-8. -/
theorem decodeFailure_binary_witness :
    pySuffix "note.txt" ∉ binaryExtensions ∧
    utf8Decode (([0xFF] : List Nat).take 8192) = none ∧
    (singleDetect (fun _ _ => none) (fun _ => none) ⟨"note.txt", some [0xFF]⟩ =
        ("Binary", 100) ∧
      classifyDirFile (fun _ _ => none) (fun _ => none)
        ⟨"note.txt", some [0xFF]⟩ = "Binary") :=
  ⟨by decide, by decide,
    decodeFailure_binary (fun _ _ => none) (fun _ => none) "note.txt" [0xFF]
      (by decide) (by decide)⟩

/-- C3 counterexample: on a decodable text file for which both the
content-based guesser and the filename-based lookup find nothing, the code
returns `Error`, not `Unknown`: the second `ClassNotFound` is not caught by
the `except UnicodeDecodeError` handler and falls through to the outer
`except Exception` (src/AJ.py lines 98-104); no `Unknown` label exists in
the code. -/
theorem classificationMiss_not_unknown :
    singleDetect (fun _ _ => none) (fun _ => none) ⟨"data.xyz", some []⟩ =
      ("Error", 100) ∧
    singleDetect (fun _ _ => none) (fun _ => none) ⟨"data.xyz", some []⟩ ≠
      ("Unknown", 100) ∧
    classifyDirFile (fun _ _ => none) (fun _ => none) ⟨"data.xyz", some []⟩ =
      "Error" := by
  refine ⟨by decide, by decide, by decide⟩

/-- C3 amended: on a decodable text file where the content-based guesser
finds no match and the extension-based lookup also finds no match, both
modes label the file `Error` (src/AJ.py lines 95-104 and 119-128). -/
theorem classificationMiss_error (g : GuessT) (l : GetT) (name : String)
    (bs text : List Nat) (h1 : pySuffix name ∉ binaryExtensions)
    (h2 : utf8Decode (bs.take 8192) = some text)
    (h3 : g name text = none) (h4 : l name = none) :
    singleDetect g l ⟨name, some bs⟩ = ("Error", 100) ∧
    classifyDirFile g l ⟨name, some bs⟩ = "Error" := by
  constructor <;> simp [singleDetect, classifyDirFile, h1, h2, h3, h4]

/-- Witness for the amended C3 at an empty decodable `.xyz` file with
oracles that find no lexer. -/
theorem classificationMiss_error_witness :
    pySuffix "data.xyz" ∉ binaryExtensions ∧
    utf8Decode (([] : List Nat).take 8192) = some [] ∧
    (singleDetect (fun _ _ => none) (fun _ => none) ⟨"data.xyz", some []⟩ =
        ("Error", 100) ∧
      classifyDirFile (fun _ _ => none) (fun _ => none) ⟨"data.xyz", some []⟩ =
        "Error") :=
  ⟨by decide, by decide,
    classificationMiss_error (fun _ _ => none) (fun _ => none) "data.xyz"
      [] [] (by decide) (by decide) rfl rfl⟩

/-- C4: a non-binary-extension file whose open/read raises is labelled
`Error` in both modes — a label distinct from `Binary` — and the exception
never escapes the classifier, which is a total function (src/AJ.py lines
103-104 and 127-128). -/
theorem readFailure_error (g : GuessT) (l : GetT) (name : String)
    (h : pySuffix name ∉ binaryExtensions) :
    singleDetect g l ⟨name, none⟩ = ("Error", 100) ∧
    classifyDirFile g l ⟨name, none⟩ = "Error" ∧
    ("Error" : String) ≠ "Binary" := by
  refine ⟨?_, ?_, by decide⟩ <;> simp [singleDetect, classifyDirFile, h]

/-- Witness for C4 at an unreadable `.txt` file. -/
theorem readFailure_error_witness :
    pySuffix "gone.txt" ∉ binaryExtensions ∧
    (singleDetect (fun _ _ => none) (fun _ => none) ⟨"gone.txt", none⟩ =
        ("Error", 100) ∧
      classifyDirFile (fun _ _ => none) (fun _ => none) ⟨"gone.txt", none⟩ =
        "Error" ∧
      ("Error" : String) ≠ "Binary") :=
  ⟨by decide,
    readFailure_error (fun _ _ => none) (fun _ => none) "gone.txt"
      (by decide)⟩

end AJ

namespace AJ

/-- C5: when at least one file was seen, the folder breakdown maps each
observed label to `round(count / total_files * 100, 1)` computed per label
with no renormalization, and the rounded percentages sum to 100 within
0.1 times the number of observed labels (src/AJ.py lines 130-131). -/
theorem dir_percentages (g : GuessT) (l : GetT) (files : List FileEntry)
    (h : 0 < (walkDir g l files).total) :
    (∀ k ∈ (dirDetect g l files).1,
      (dirDetect g l files).2 k =
        pyRound1 (((walkDir g l files).stats.count k : ℚ) /
          ((walkDir g l files).total : ℚ) * 100)) ∧
    |(∑ k ∈ (dirDetect g l files).1, (dirDetect g l files).2 k) - 100| ≤
      ((dirDetect g l files).1.card : ℚ) * (1 / 10) := by
  constructor
  · intro k _
    rw [dirDetect_pos g l files h]
  · exact dirDetect_sum_close g l files h

/-- Witness for C5: a one-file folder. -/
theorem dir_percentages_witness :
    0 < (walkDir (fun _ _ => none) (fun _ => none)
          [⟨"note.txt", some [0xFF]⟩]).total ∧
    ((∀ k ∈ (dirDetect (fun _ _ => none) (fun _ => none)
          [⟨"note.txt", some [0xFF]⟩]).1,
        (dirDetect (fun _ _ => none) (fun _ => none)
            [⟨"note.txt", some [0xFF]⟩]).2 k =
          pyRound1 (((walkDir (fun _ _ => none) (fun _ => none)
              [⟨"note.txt", some [0xFF]⟩]).stats.count k : ℚ) /
            ((walkDir (fun _ _ => none) (fun _ => none)
                [⟨"note.txt", some [0xFF]⟩]).total : ℚ) * 100)) ∧
      |(∑ k ∈ (dirDetect (fun _ _ => none) (fun _ => none)
            [⟨"note.txt", some [0xFF]⟩]).1,
          (dirDetect (fun _ _ => none) (fun _ => none)
              [⟨"note.txt", some [0xFF]⟩]).2 k) - 100| ≤
        ((dirDetect (fun _ _ => none) (fun _ => none)
            [⟨"note.txt", some [0xFF]⟩]).1.card : ℚ) * (1 / 10)) :=
  ⟨by decide,
    dir_percentages (fun _ _ => none) (fun _ => none)
      [⟨"note.txt", some [0xFF]⟩] (by decide)⟩

/-- C6: a directory with zero regular files produces the empty breakdown and
`total_files` stays 0 — the `total_files > 0` guard means the division is
never reached (src/AJ.py lines 130-132). -/
theorem empty_dir_empty_breakdown (g : GuessT) (l : GetT) :
    dirDetect g l [] = (∅, fun _ => 0) ∧ (walkDir g l []).total = 0 :=
  ⟨rfl, rfl⟩

/-- C7: a file named `script` (no extension) containing `#!/bin/bash\necho
hi` is labelled `Bash` by the content-based shebang heuristic of the
guesser, whatever the filename-based fallback would say (src/AJ.py lines
90-104, guesser modelled from the spec as `specShebangGuess`). -/
theorem shebang_bash (l : GetT) :
    singleDetect specShebangGuess l
      ⟨"script", some (strCodes "#!/bin/bash\necho hi")⟩ = ("Bash", 100) :=
  rfl

/-- C8 counterexample: extension matching is case-sensitive, not
case-normalized: `.png` is in the binary-extension set but `.PNG` is not,
and a decodable file named `a.PNG` is classified by content — here to a
lexer label — instead of resolving to `Binary` the way `a.png` does
(src/AJ.py lines 83, 87, 110). -/
theorem ext_case_not_normalized :
    pySuffix "a.png" ∈ binaryExtensions ∧
    pySuffix "a.PNG" ∉ binaryExtensions ∧
    singleDetect (fun _ _ => some "Text only") (fun _ => none)
      ⟨"a.png", some []⟩ = ("Binary", 100) ∧
    singleDetect (fun _ _ => some "Text only") (fun _ => none)
      ⟨"a.PNG", some []⟩ = ("Text only", 100) :=
  ⟨by decide, by decide, by decide, by decide⟩

/-- C8 amended: binary-extension matching compares the suffix literally
against the lowercase registry entries, so `.PNG` and `.Zip` never match;
such files are classified by content instead, and in particular an
undecodable `.PNG` or `.Zip` file is still labelled `Binary`, but only via
the decode-failure path. -/
theorem ext_case_sensitive (g : GuessT) (l : GetT) (name : String)
    (bs : List Nat)
    (h1 : pySuffix name = ".PNG" ∨ pySuffix name = ".Zip")
    (h2 : utf8Decode (bs.take 8192) = none) :
    pySuffix name ∉ binaryExtensions ∧
    singleDetect g l ⟨name, some bs⟩ = ("Binary", 100) ∧
    classifyDirFile g l ⟨name, some bs⟩ = "Binary" := by
  have hn : pySuffix name ∉ binaryExtensions := by
    rcases h1 with h | h <;> rw [h] <;> decide
  refine ⟨hn, ?_, ?_⟩ <;> simp [singleDetect, classifyDirFile, hn, h2]

/-- Witness for the amended C8 at an undecodable file named `a.PNG`. -/
theorem ext_case_sensitive_witness :
    (pySuffix "a.PNG" = ".PNG" ∨ pySuffix "a.PNG" = ".Zip") ∧
    utf8Decode (([0xFF] : List Nat).take 8192) = none ∧
    (pySuffix "a.PNG" ∉ binaryExtensions ∧
      singleDetect (fun _ _ => none) (fun _ => none) ⟨"a.PNG", some [0xFF]⟩ =
        ("Binary", 100) ∧
      classifyDirFile (fun _ _ => none) (fun _ => none)
        ⟨"a.PNG", some [0xFF]⟩ = "Binary") :=
  ⟨Or.inl (by decide), by decide,
    ext_case_sensitive (fun _ _ => none) (fun _ => none) "a.PNG" [0xFF]
      (Or.inl (by decide)) (by decide)⟩

/-- C9: when the external linguist tool fails in any way (missing binary,
exception, 30s timeout — all modelled by `none`), the menu silently falls
back to the internal pygments classification of the same path and, for a
non-empty folder, that fallback is a valid breakdown whose percentages sum
to 100 within 0.1 per observed label (src/AJ.py lines 59-76 and 167-171). -/
theorem linguist_fallback (g : GuessT) (l : GetT) (files : List FileEntry)
    (h : files ≠ []) :
    folderAnalyze none g l files =
      MenuResult.internal (dirDetect g l files) ∧
    folderAnalyze (some []) g l files =
      MenuResult.internal (dirDetect g l files) ∧
    |(∑ k ∈ (dirDetect g l files).1, (dirDetect g l files).2 k) - 100| ≤
      ((dirDetect g l files).1.card : ℚ) * (1 / 10) := by
  have hpos : 0 < (walkDir g l files).total := by
    rw [walkDir_total_eq_length]
    exact List.length_pos.mpr h
  exact ⟨rfl, rfl, dirDetect_sum_close g l files hpos⟩

/-- Witness for C9: a non-empty one-file folder. -/
theorem linguist_fallback_witness :
    ([⟨"note.txt", some [0xFF]⟩] : List FileEntry) ≠ [] ∧
    (folderAnalyze none (fun _ _ => none) (fun _ => none)
        [⟨"note.txt", some [0xFF]⟩] =
      MenuResult.internal (dirDetect (fun _ _ => none) (fun _ => none)
        [⟨"note.txt", some [0xFF]⟩]) ∧
    folderAnalyze (some []) (fun _ _ => none) (fun _ => none)
        [⟨"note.txt", some [0xFF]⟩] =
      MenuResult.internal (dirDetect (fun _ _ => none) (fun _ => none)
        [⟨"note.txt", some [0xFF]⟩]) ∧
    |(∑ k ∈ (dirDetect (fun _ _ => none) (fun _ => none)
          [⟨"note.txt", some [0xFF]⟩]).1,
        (dirDetect (fun _ _ => none) (fun _ => none)
            [⟨"note.txt", some [0xFF]⟩]).2 k) - 100| ≤
      ((dirDetect (fun _ _ => none) (fun _ => none)
          [⟨"note.txt", some [0xFF]⟩]).1.card : ℚ) * (1 / 10)) :=
  ⟨by decide,
    linguist_fallback (fun _ _ => none) (fun _ => none)
      [⟨"note.txt", some [0xFF]⟩] (by decide)⟩

/-- C10: each visited file increments `total_files` by one and adds exactly
one label occurrence, so after every prefix of the walk (and hence after
each file) the sum of all per-label counts equals `total_files`
(src/AJ.py lines 107-128). -/
theorem counts_sum_invariant (g : GuessT) (l : GetT)
    (files : List FileEntry) :
    (∀ n : Nat,
      Multiset.card (walkDir g l (files.take n)).stats =
        (walkDir g l (files.take n)).total ∧
      ∑ k ∈ (walkDir g l (files.take n)).stats.toFinset,
          (walkDir g l (files.take n)).stats.count k =
        (walkDir g l (files.take n)).total) ∧
    (∀ (st : AggState) (f : FileEntry),
      Multiset.card (stepFile g l st f).stats =
        Multiset.card st.stats + 1 ∧
      (stepFile g l st f).total = st.total + 1) := by
  constructor
  · intro n
    constructor
    · exact walkDir_card_eq_total g l (files.take n)
    · rw [Multiset.toFinset_sum_count_eq]
      exact walkDir_card_eq_total g l (files.take n)
  · intro st f
    constructor
    · simp [stepFile]
    · rfl

end AJ
